import Mathlib

/-!
Verification development for the real-world-fastify authentication core.

The definitions below are a shallow embedding of the repository code:

* prisma/schema.prisma            — the User model and its unique email column
* src/modules/users/user.service  — findByEmail, create, comparePassword, sanitizeUser
* src/modules/auth/auth.service   — registerUser, validateUser, generateJwt
* src/modules/auth/auth.controller— registerHandler, loginHandler
* src/modules/auth/auth.schema    — the RegisterResponse and LoginResponse schemas
* src/modules/auth/auth.route     — route registration applying the response schemas
* src/plugins/jwt                 — jwtPlugin (secret configuration, authenticate)
* src/plugins/errorHandler        — the global error handler
* src/utils/response              — success, error, unauthorized helpers

Third-party leaves (bcrypt, the JWT library) and the missing
src/utils/httpStatusCodes.ts file are modelled from the specification and
carry a doc comment saying so. Asynchronous database access is modelled as
explicit state passing over a list of User rows; the clock and the bcrypt
salt source are fields of that state.
-/

namespace RealWorldFastify

/-- Modelled from the spec: the bcrypt library (an external collaborator,
spec section 4.1). A hash is an abstract value determined by the work factor,
a fresh salt, and the plaintext it digests; the plaintext is recorded only
so that comparison can be defined, it is never readable through any
operation the code performs on a hash. -/
structure HashedPassword where
  rounds : Nat
  salt : Nat
  digestOf : String
deriving DecidableEq, Repr

/-- Modelled from the spec: bcrypt.hash(plain, saltRounds) with an explicit
fresh salt (the source of non-determinism of the real primitive). -/
def bcryptHash (rounds : Nat) (salt : Nat) (plain : String) : HashedPassword :=
  { rounds := rounds, salt := salt, digestOf := plain }

/-- Modelled from the spec: bcrypt.compare(plain, hashed) is true iff
plain was the input that produced hashed (spec section 4.1). -/
def bcryptCompare (plain : String) (hashed : HashedPassword) : Bool :=
  hashed.digestOf == plain

/-- The User row of prisma/schema.prisma: id (autoincrement), email
(unique), password (the bcrypt hash), name, createdAt, updatedAt. -/
structure User where
  id : Nat
  email : String
  password : HashedPassword
  name : String
  createdAt : Nat
  updatedAt : Nat
deriving DecidableEq, Repr

/-- The persistence state: the users table plus the autoincrement counter,
the clock used for the prisma timestamps, and the bcrypt salt source. -/
structure StoreState where
  users : List User
  nextId : Nat
  now : Nat
  nextSalt : Nat
deriving DecidableEq, Repr

/-- Body of a register request (auth.schema.ts RegisterInput). -/
structure RegisterInput where
  email : String
  password : String
  name : String
deriving DecidableEq, Repr

/-- Body of a login request (auth.schema.ts LoginInput). -/
structure LoginInput where
  email : String
  password : String
deriving DecidableEq, Repr

/-- user.service findByEmail: prisma findUnique on the email column,
modelled as the first row whose email matches. -/
def findByEmail (st : StoreState) (email : String) : Option User :=
  st.users.find? (fun u => u.email == email)

/-- user.service findById: prisma findUnique on the id column. -/
def findById (st : StoreState) (id : Nat) : Option User :=
  st.users.find? (fun u => u.id == id)

/-- The work factor hard-coded in user.service create. -/
def saltRounds : Nat := 10

/-- user.service create: hash the password with bcrypt (10 rounds) and
insert the new row. The store enforces the unique constraint on email
declared in prisma/schema.prisma, surfacing a violation as an error. -/
def create (st : StoreState) (data : RegisterInput) :
    Except String (User × StoreState) :=
  if (findByEmail st data.email).isSome then
    Except.error "Unique constraint failed on the fields: (email)"
  else
    let u : User :=
      { id := st.nextId
        email := data.email
        password := bcryptHash saltRounds st.nextSalt data.password
        name := data.name
        createdAt := st.now
        updatedAt := st.now }
    Except.ok (u, { st with
      users := st.users ++ [u]
      nextId := st.nextId + 1
      nextSalt := st.nextSalt + 1 })

/-- user.service comparePassword: forwards to bcrypt.compare. -/
def comparePassword (plainPassword : String) (hashedPassword : HashedPassword) : Bool :=
  bcryptCompare plainPassword hashedPassword

/-- The outward view of a User: everything except the password hash.
user.service sanitizeUser produces exactly this shape by destructuring
the password field away. -/
structure SanitizedUser where
  id : Nat
  email : String
  name : String
  createdAt : Nat
  updatedAt : Nat
deriving DecidableEq, Repr

/-- user.service sanitizeUser: drop the password field, keep the rest. -/
def sanitizeUser (u : User) : SanitizedUser :=
  { id := u.id
    email := u.email
    name := u.name
    createdAt := u.createdAt
    updatedAt := u.updatedAt }

/-- auth.service registerUser: look the email up first, fail when a user
already exists, otherwise delegate to user.service create. -/
def registerUser (st : StoreState) (input : RegisterInput) :
    Except String (User × StoreState) :=
  match findByEmail st input.email with
  | some _ => Except.error "User with this email already exists"
  | none => create st input

/-- auth.service validateUser: look the user up by email; absent gives
null; otherwise compare the password and give null on mismatch. -/
def validateUser (st : StoreState) (email : String) (password : String) :
    Option User :=
  match findByEmail st email with
  | none => none
  | some user =>
    if comparePassword password user.password then some user else none

/-- An observable call to the password verifier, used to make the work
performed by validateUser visible. -/
inductive HasherEvent where
  | compareCall (plain : String) (hashed : HashedPassword)
deriving DecidableEq, Repr

/-- auth.service validateUser instrumented with the list of comparePassword
calls it performs, in order. Its first component is validateUser itself
(proved below); the second records the verifier work. -/
def validateUserTrace (st : StoreState) (email : String) (password : String) :
    Option User × List HasherEvent :=
  match findByEmail st email with
  | none => (none, [])
  | some user =>
    ((if comparePassword password user.password then some user else none),
     [HasherEvent.compareCall password user.password])

/-! ## Token Service (src/plugins/jwt.ts plus the JWT library) -/

/-- The claims a session token carries (the JWTPayload interface of
src/plugins/jwt.ts). -/
structure JwtClaims where
  userId : Nat
  email : String
deriving DecidableEq, Repr

/-- Modelled from the spec: the signature the JWT library computes binds
the secret, the claims and the expiration together (spec section 4.2). -/
structure JwtSignature where
  secret : String
  claims : JwtClaims
  exp : Nat
deriving DecidableEq, Repr

/-- Modelled from the spec: a signed, self-contained token embedding the
claims, the expiration instant, and the signature over both. -/
structure JwtToken where
  claims : JwtClaims
  exp : Nat
  sig : JwtSignature
deriving DecidableEq, Repr

/-- Modelled from the spec: the JWT library sign operation. The expiration
is now plus the configured time to live; the signature binds secret,
claims and expiration. -/
def jwtSign (secret : String) (expiresIn : Nat) (now : Nat) (payload : JwtClaims) :
    JwtToken :=
  { claims := payload
    exp := now + expiresIn
    sig := { secret := secret, claims := payload, exp := now + expiresIn } }

/-- Modelled from the spec: the JWT library verify operation. It recomputes
the signature with its own secret and checks the expiration against the
current time; any mismatch gives the generic invalid outcome. -/
def jwtVerify (token : JwtToken) (secret : String) (now : Nat) : Option JwtClaims :=
  if token.sig = { secret := secret, claims := token.claims, exp := token.exp } ∧ now < token.exp
  then some token.claims
  else none

/-- JavaScript falsiness of an optional environment string: unset or
empty both count as missing. -/
def strFalsy : Option String → Bool
  | none => true
  | some s => s.isEmpty

/-- The environment variables read by src/plugins/jwt.ts. -/
structure Env where
  jwtSecret : Option String
  nodeEnv : Option String
  jwtExpiresIn : Option Nat
deriving Repr

/-- The insecure fallback secret hard-coded in src/plugins/jwt.ts. -/
def defaultJwtSecret : String := "super-secret-jwt-token"

/-- The default time to live, the string literal 1d of src/plugins/jwt.ts,
modelled in seconds. -/
def oneDay : Nat := 86400

/-- The JWT configuration the plugin registers: the resolved secret and
the resolved expiresIn. -/
structure JwtConfig where
  secret : String
  expiresIn : Nat
deriving DecidableEq, Repr

/-- src/plugins/jwt.ts startup: throw when JWT_SECRET is missing while
NODE_ENV is production (a thrown plugin error aborts server startup);
otherwise register the JWT library with the configured or fallback
secret and the configured or default expiresIn. -/
def jwtPlugin (env : Env) : Except String JwtConfig :=
  if strFalsy env.jwtSecret && (env.nodeEnv == some "production") then
    Except.error "JWT_SECRET must be provided in production environment"
  else
    Except.ok
      { secret :=
          if strFalsy env.jwtSecret then defaultJwtSecret
          else env.jwtSecret.getD defaultJwtSecret
        expiresIn := env.jwtExpiresIn.getD oneDay }

/-- auth.service generateJwt: sign the payload with the configuration the
plugin registered. -/
def generateJwt (cfg : JwtConfig) (now : Nat) (payload : JwtClaims) : JwtToken :=
  jwtSign cfg.secret cfg.expiresIn now payload

/-! ## HTTP responses (src/utils/response.ts, src/utils/httpStatusCodes.ts) -/

/-- A JSON value, the shape of every outward payload. -/
inductive Json where
  | str : String → Json
  | num : Nat → Json
  | boolean : Bool → Json
  | obj : List (String × Json) → Json
deriving Repr

/-- The fields of a JSON object, empty for non-objects. -/
def Json.objFields : Json → List (String × Json)
  | .obj fs => fs
  | _ => []

/-- The keys of a JSON object, in order. -/
def Json.keys (j : Json) : List String :=
  j.objFields.map Prod.fst

/-- Look a key up in a JSON object. -/
def Json.lookup (j : Json) (k : String) : Option Json :=
  List.lookup k j.objFields

namespace HttpStatus

/-- Modelled from the spec: src/utils/httpStatusCodes.ts is referenced by
the controllers and response helpers but absent from the sources; its
members carry the standard HTTP status numbers (the tests pin 201, 200
and 401). -/
def OK : Nat := 200

/-- Modelled from the spec: see HttpStatus.OK. -/
def CREATED : Nat := 201

/-- Modelled from the spec: see HttpStatus.OK. -/
def BAD_REQUEST : Nat := 400

/-- Modelled from the spec: see HttpStatus.OK. -/
def UNAUTHORIZED : Nat := 401

/-- Modelled from the spec: see HttpStatus.OK. -/
def INTERNAL_ERROR : Nat := 500

end HttpStatus

/-- An HTTP response: status code and JSON body. -/
structure Response where
  status : Nat
  body : Json
deriving Repr

/-- src/utils/response.ts success: code(status).send with success true and
the data payload. -/
def success (data : Json) (status : Nat) : Response :=
  { status := status
    body := Json.obj [("success", Json.boolean true), ("data", data)] }

/-- src/utils/response.ts error: code(status).send with success false and
the message. -/
def error (message : String) (status : Nat) : Response :=
  { status := status
    body := Json.obj [("success", Json.boolean false), ("message", Json.str message)] }

/-- src/utils/response.ts unauthorized: error with status 401. -/
def unauthorized (message : String) : Response :=
  error message HttpStatus.UNAUTHORIZED

/-! ## Controllers (src/modules/auth/auth.controller.ts) -/

/-- The JSON rendering of the sanitized user object the controllers hand
to the response helper (what serializing it without a schema yields). -/
def SanitizedUser.toJson (su : SanitizedUser) : Json :=
  Json.obj
    [("id", Json.num su.id), ("email", Json.str su.email),
     ("name", Json.str su.name), ("createdAt", Json.num su.createdAt),
     ("updatedAt", Json.num su.updatedAt)]

/-- The wire encoding of a token (its exact string form is irrelevant to
every property below). -/
def encodeToken (t : JwtToken) : String :=
  reprStr t

/-- auth.controller registerHandler: call registerUser, sanitize the user
and answer 201 on success; on a thrown error answer its message with the
error statusCode, falling back to 400 (the errors thrown on this path
carry no statusCode). -/
def registerHandler (st : StoreState) (input : RegisterInput) :
    Response × StoreState :=
  match registerUser st input with
  | Except.ok (user, st') =>
    (success (sanitizeUser user).toJson HttpStatus.CREATED, st')
  | Except.error msg =>
    (error msg HttpStatus.BAD_REQUEST, st)

/-- auth.controller loginHandler: validate the credentials; on failure
answer the fixed invalid message with 401; on success issue the token,
sanitize the user and answer 200 with both. -/
def loginHandler (cfg : JwtConfig) (now : Nat) (st : StoreState)
    (input : LoginInput) : Response :=
  match validateUser st input.email input.password with
  | none => error "Invalid email or password" HttpStatus.UNAUTHORIZED
  | some user =>
    let token := generateJwt cfg now { userId := user.id, email := user.email }
    let sanitizedUser := sanitizeUser user
    success
      (Json.obj [("token", Json.str (encodeToken token)),
                 ("user", sanitizedUser.toJson)])
      HttpStatus.OK

/-! ## Response schemas (src/modules/auth/auth.schema.ts) and routes
(src/modules/auth/auth.route.ts). Fastify serializes a response through
the schema declared for its status code, keeping exactly the declared
properties and dropping every other field. -/

/-- Keep the named property of a JSON object when present (one declared
schema property under fast-json-stringify). -/
def schemaField (fs : List (String × Json)) (k : String) : List (String × Json) :=
  match List.lookup k fs with
  | some v => [(k, v)]
  | none => []

/-- The RegisterResponse schema of auth.schema.ts: an object with success
and data, where data declares exactly id, email and name. -/
def serializeRegisterResponse (body : Json) : Json :=
  Json.obj
    (schemaField body.objFields "success" ++
      (match Json.lookup body "data" with
       | some d =>
         [("data", Json.obj
            (schemaField d.objFields "id" ++ schemaField d.objFields "email" ++
             schemaField d.objFields "name"))]
       | none => []))

/-- The LoginResponse schema of auth.schema.ts: an object with success and
data, where data declares token and a user with exactly id, email and
name. -/
def serializeLoginResponse (body : Json) : Json :=
  Json.obj
    (schemaField body.objFields "success" ++
      (match Json.lookup body "data" with
       | some d =>
         [("data", Json.obj
            (schemaField d.objFields "token" ++
              (match Json.lookup d "user" with
               | some u =>
                 [("user", Json.obj
                    (schemaField u.objFields "id" ++
                     schemaField u.objFields "email" ++
                     schemaField u.objFields "name"))]
               | none => [])))]
       | none => []))

/-- The register route of auth.route.ts: run the handler, then serialize a
201 response through the RegisterResponse schema (the only status the
route declares a schema for). -/
def registerRoute (st : StoreState) (input : RegisterInput) :
    Response × StoreState :=
  let (resp, st') := registerHandler st input
  (if resp.status == HttpStatus.CREATED then
    { resp with body := serializeRegisterResponse resp.body }
   else resp, st')

/-- The login route of auth.route.ts: run the handler, then serialize a
200 response through the LoginResponse schema (the only status the route
declares a schema for). -/
def loginRoute (cfg : JwtConfig) (now : Nat) (st : StoreState)
    (input : LoginInput) : Response :=
  let resp := loginHandler cfg now st input
  if resp.status == HttpStatus.OK then
    { resp with body := serializeLoginResponse resp.body }
  else resp

/-! ## Request authorization (the authenticate decorator of
src/plugins/jwt.ts) -/

/-- The authenticate decorator: jwtVerify the presented token (when the
request carries none the library call fails the same way); rejection
short-circuits with the fixed unauthorized response, success attaches the
decoded claims to the request. -/
def authenticate (cfg : JwtConfig) (now : Nat) (tok : Option JwtToken) :
    Except Response JwtClaims :=
  match tok with
  | none => Except.error (unauthorized "Invalid or expired token")
  | some t =>
    match jwtVerify t cfg.secret now with
    | some claims => Except.ok claims
    | none => Except.error (unauthorized "Invalid or expired token")

/-! ## Request validation and the global error handler
(src/modules/auth/auth.schema.ts, src/plugins/errorHandler.ts). A request
whose body fails schema validation never reaches the handler; the
validation error is dispatched to the global error handler. -/

/-- The password pattern of auth.schema.ts: at least one lowercase letter,
one uppercase letter and one digit, and the whole string made of at least
eight non-newline characters. -/
def passwordPattern (p : String) : Bool :=
  p.data.any (fun c => c.isLower) && p.data.any (fun c => c.isUpper) &&
  p.data.any (fun c => c.isDigit) && decide (8 ≤ p.data.length) &&
  p.data.all (fun c => c != Char.ofNat 10)

/-- Modelled from the spec: the email format check the validation library
applies for format email, reduced to the shape it guarantees (exactly one
at sign, a non-empty local part, and a non-empty domain containing a
dot). -/
def emailFormat (e : String) : Bool :=
  (e.data.countP (fun c => c == Char.ofNat 64) == 1) &&
  (match e.data.dropWhile (fun c => c != Char.ofNat 64) with
   | _ :: dom =>
     !(e.data.takeWhile (fun c => c != Char.ofNat 64)).isEmpty &&
     !dom.isEmpty && dom.contains (Char.ofNat 46)
   | [] => false)

/-- The RegisterInput schema of auth.schema.ts: email format and length
5 to 255, password length 8 to 100 matching the pattern, name length
2 to 100. -/
def validRegisterInput (i : RegisterInput) : Bool :=
  decide (5 ≤ i.email.length) && decide (i.email.length ≤ 255) &&
  emailFormat i.email &&
  decide (8 ≤ i.password.length) && decide (i.password.length ≤ 100) &&
  passwordPattern i.password &&
  decide (2 ≤ i.name.length) && decide (i.name.length ≤ 100)

/-- The LoginInput schema of auth.schema.ts: email format and length
5 to 255, password length 8 to 100. -/
def validLoginInput (i : LoginInput) : Bool :=
  decide (5 ≤ i.email.length) && decide (i.email.length ≤ 255) &&
  emailFormat i.email &&
  decide (8 ≤ i.password.length) && decide (i.password.length ≤ 100)

/-- An error reaching the global error handler: its message, its optional
statusCode, and its optional stack trace. -/
structure CaughtError where
  message : String
  statusCode : Option Nat
  stack : Option String
deriving Repr

/-- src/plugins/errorHandler.ts: build success false, the message (with
the literal fallback when empty), the statusCode (falling back to 500 on
a missing or zero code, both falsy); when NODE_ENV is development and the
error has a stack, append it to the payload. -/
def errorHandler (nodeEnv : Option String) (e : CaughtError) : Response :=
  let status :=
    match e.statusCode with
    | some n => if n == 0 then HttpStatus.INTERNAL_ERROR else n
    | none => HttpStatus.INTERNAL_ERROR
  let message := if e.message.isEmpty then "Internal Server Error" else e.message
  let base :=
    [("success", Json.boolean false), ("message", Json.str message),
     ("statusCode", Json.num status)]
  { status := status
    body := Json.obj
      (if nodeEnv == some "development" && e.stack.isSome then
        base ++ [("stack", Json.str (e.stack.getD ""))]
       else base) }

/-- The validation failure the framework raises for a body violating the
route schema: a 400 error carrying the stack captured at the raise site
(the message text is modelled; its exact wording is generated from the
schema). -/
def validationError (stack : Option String) : CaughtError :=
  { message := "body does not match the route schema"
    statusCode := some HttpStatus.BAD_REQUEST
    stack := stack }

/-- The full register request pipeline: schema validation dispatching to
the global error handler on failure, the route otherwise. -/
def registerRequest (nodeEnv : Option String) (st : StoreState)
    (input : RegisterInput) (stack : Option String) :
    Response × StoreState :=
  if validRegisterInput input then registerRoute st input
  else (errorHandler nodeEnv (validationError stack), st)

/-- The full login request pipeline: schema validation dispatching to the
global error handler on failure, the route otherwise. -/
def loginRequest (cfg : JwtConfig) (nodeEnv : Option String) (now : Nat)
    (st : StoreState) (input : LoginInput) (stack : Option String) : Response :=
  if validLoginInput input then loginRoute cfg now st input
  else errorHandler nodeEnv (validationError stack)

/-! ## Invariants and concrete fixtures -/

/-- The data-model invariant: at most one User row per email. -/
def emailUnique (users : List User) : Prop :=
  ∀ E, users.countP (fun u => u.email == E) ≤ 1

/-- An empty store. -/
def stEmpty : StoreState :=
  { users := [], nextId := 1, now := 100, nextSalt := 0 }

/-- A concrete user row. -/
def userA : User :=
  { id := 1
    email := "a@x.com"
    password := bcryptHash saltRounds 7 "Passw0rd"
    name := "Alice"
    createdAt := 100
    updatedAt := 100 }

/-- A store holding exactly userA. -/
def stA : StoreState :=
  { users := [userA], nextId := 2, now := 200, nextSalt := 8 }

/-- A concrete JWT configuration. -/
def cfgA : JwtConfig :=
  { secret := "s3cret", expiresIn := oneDay }

/-- A concrete register request body. -/
def regInputA : RegisterInput :=
  { email := "a@x.com", password := "Passw0rd", name := "Alice" }

/-- A register request body whose password violates the schema. -/
def badRegInput : RegisterInput :=
  { email := "a@x.com", password := "short", name := "Alice" }

/-- A concrete stack trace as captured by a raised validation error. -/
def devStackTrace : String :=
  "Error: body does not match the route schema\n    at Object.validate (/app/node_modules/fastify/lib/validation.js:120:7)"

/-! ## Claims -/

/-- C3: for every plaintext p, verifying p against the hash produced from
p returns true, and for every pair of distinct plaintexts p and p2,
verifying p against the hash produced from p2 returns false, whatever
work factors and salts the two hashes used. -/
theorem C3_hash_roundtrip (rounds salt rounds2 salt2 : Nat) (p p2 : String)
    (hne : p ≠ p2) :
    comparePassword p (bcryptHash rounds salt p) = true ∧
    comparePassword p (bcryptHash rounds2 salt2 p2) = false := by
  constructor
  · simp [comparePassword, bcryptCompare, bcryptHash]
  · have h : p2 ≠ p := fun h => hne h.symm
    simp [comparePassword, bcryptCompare, bcryptHash, h]

/-- C3 witness at a concrete pair of plaintexts. -/
theorem C3_hash_roundtrip_witness :
    comparePassword "Passw0rd" (bcryptHash 10 0 "Passw0rd") = true ∧
    comparePassword "Passw0rd" (bcryptHash 10 1 "Hunter2x") = false :=
  C3_hash_roundtrip 10 0 10 1 "Passw0rd" "Hunter2x" (by decide)

/-- C2: verifying a token immediately after issuing it with the same
secret yields exactly the issued claims, and verifying it with a
different secret yields the invalid outcome (for any positive configured
time to live). -/
theorem C2_token_roundtrip (cfg : JwtConfig) (now : Nat) (c : JwtClaims)
    (otherSecret : String) (httl : 0 < cfg.expiresIn)
    (hsec : otherSecret ≠ cfg.secret) :
    jwtVerify (generateJwt cfg now c) cfg.secret now = some c ∧
    jwtVerify (generateJwt cfg now c) otherSecret now = none := by
  have hlt : now < now + cfg.expiresIn := Nat.lt_add_of_pos_right httl
  constructor
  · simp [jwtVerify, generateJwt, jwtSign, hlt]
  · have h : ¬ (cfg.secret = otherSecret) := fun h => hsec h.symm
    simp [jwtVerify, generateJwt, jwtSign, h]

/-- C2 witness at concrete claims, configuration and wrong secret. -/
theorem C2_token_roundtrip_witness :
    jwtVerify (generateJwt cfgA 200 { userId := 1, email := "a@x.com" })
        cfgA.secret 200 = some { userId := 1, email := "a@x.com" } ∧
    jwtVerify (generateJwt cfgA 200 { userId := 1, email := "a@x.com" })
        "wrong-secret" 200 = none :=
  C2_token_roundtrip cfgA 200 { userId := 1, email := "a@x.com" }
    "wrong-secret" (by decide) (by decide)

/-- C10: when the email matches no stored user, validateUser returns none
without performing any password comparison; the instrumented run agrees
with validateUser everywhere, and performs exactly one comparison
whenever a user was found. -/
theorem C10_no_compare_without_user (st : StoreState) (email password : String)
    (habsent : findByEmail st email = none) :
    validateUserTrace st email password = (none, []) ∧
    (∀ e p, (validateUserTrace st e p).1 = validateUser st e p) ∧
    (∀ e p u, findByEmail st e = some u →
      (validateUserTrace st e p).2 = [HasherEvent.compareCall p u.password]) := by
  refine ⟨?_, ?_, ?_⟩
  · simp [validateUserTrace, habsent]
  · intro e p
    unfold validateUserTrace validateUser
    cases findByEmail st e <;> simp
  · intro e p u hu
    simp [validateUserTrace, hu]

/-- C10 witness on the empty store. -/
theorem C10_no_compare_without_user_witness :
    validateUserTrace stEmpty "a@x.com" "Passw0rd" = (none, []) :=
  (C10_no_compare_without_user stEmpty "a@x.com" "Passw0rd" (by decide)).1

/-- C8: starting with no configured secret while NODE_ENV is production
makes the jwt plugin fail startup with an error; with no configured
secret outside production it registers the insecure fallback secret. -/
theorem C8_production_secret (env : Env) :
    (strFalsy env.jwtSecret = true → env.nodeEnv = some "production" →
      jwtPlugin env =
        Except.error "JWT_SECRET must be provided in production environment") ∧
    (strFalsy env.jwtSecret = true → env.nodeEnv ≠ some "production" →
      jwtPlugin env =
        Except.ok { secret := defaultJwtSecret
                    expiresIn := env.jwtExpiresIn.getD oneDay }) := by
  constructor
  · intro hf hp
    simp [jwtPlugin, hf, hp]
  · intro hf hp
    simp [jwtPlugin, hf, hp]

/-- C8 witness: a production environment without a secret fails startup,
a development environment without a secret falls back. -/
theorem C8_production_secret_witness :
    jwtPlugin { jwtSecret := none, nodeEnv := some "production", jwtExpiresIn := none } =
      Except.error "JWT_SECRET must be provided in production environment" ∧
    jwtPlugin { jwtSecret := none, nodeEnv := some "development", jwtExpiresIn := none } =
      Except.ok { secret := defaultJwtSecret, expiresIn := oneDay } := by
  constructor
  · exact (C8_production_secret
      { jwtSecret := none, nodeEnv := some "production", jwtExpiresIn := none }).1
      rfl rfl
  · exact (C8_production_secret
      { jwtSecret := none, nodeEnv := some "development", jwtExpiresIn := none }).2
      rfl (by decide)

/-- C1: for every stored state, a login with an unknown email and a login
with a known email but wrong password produce the very same response:
same error kind, same status, same body, so the outcome never reveals
whether the account exists. -/
theorem C1_credential_hiding (cfg : JwtConfig) (now : Nat) (st : StoreState)
    (e1 p1 e2 p2 : String) (u : User)
    (h1 : findByEmail st e1 = none)
    (h2 : findByEmail st e2 = some u)
    (h3 : comparePassword p2 u.password = false) :
    loginRoute cfg now st { email := e1, password := p1 } =
      loginRoute cfg now st { email := e2, password := p2 } ∧
    loginRoute cfg now st { email := e1, password := p1 } =
      error "Invalid email or password" HttpStatus.UNAUTHORIZED := by
  have hv1 : validateUser st e1 p1 = none := by
    simp [validateUser, h1]
  have hv2 : validateUser st e2 p2 = none := by
    simp [validateUser, h2, h3]
  have hr1 : loginRoute cfg now st { email := e1, password := p1 } =
      error "Invalid email or password" HttpStatus.UNAUTHORIZED := by
    simp [loginRoute, loginHandler, hv1, error, HttpStatus.UNAUTHORIZED, HttpStatus.OK]
  have hr2 : loginRoute cfg now st { email := e2, password := p2 } =
      error "Invalid email or password" HttpStatus.UNAUTHORIZED := by
    simp [loginRoute, loginHandler, hv2, error, HttpStatus.UNAUTHORIZED, HttpStatus.OK]
  exact ⟨hr1.trans hr2.symm, hr1⟩

/-- C1 witness: on the one-user store, an unknown email and the stored
email with a wrong password give identical responses. -/
theorem C1_credential_hiding_witness :
    loginRoute cfgA 200 stA { email := "b@x.com", password := "whatever1" } =
      loginRoute cfgA 200 stA { email := "a@x.com", password := "WrongPw99" } :=
  (C1_credential_hiding cfgA 200 stA "b@x.com" "whatever1" "a@x.com" "WrongPw99"
    userA (by decide) (by decide) (by decide)).1

/-- A successful registerUser run found no user under the email, created
the row with that email, and appended exactly it to the table. -/
lemma registerUser_ok_shape (st : StoreState) (input : RegisterInput)
    (u : User) (st' : StoreState)
    (h : registerUser st input = Except.ok (u, st')) :
    findByEmail st input.email = none ∧ u.email = input.email ∧
    st'.users = st.users ++ [u] := by
  unfold registerUser at h
  cases hfind : findByEmail st input.email with
  | some v =>
    rw [hfind] at h
    exact absurd h (by simp)
  | none =>
    rw [hfind] at h
    unfold create at h
    rw [hfind] at h
    simp only [Option.isSome_none, Bool.false_eq_true, if_false,
      Except.ok.injEq, Prod.mk.injEq] at h
    obtain ⟨hu, hst⟩ := h
    refine ⟨rfl, ?_, ?_⟩
    · rw [← hu]
    · rw [← hst, ← hu]

/-- A user exists under the email iff findByEmail finds one. -/
lemma findByEmail_isSome_iff (st : StoreState) (email : String) :
    (findByEmail st email).isSome = true ↔ ∃ u ∈ st.users, u.email = email := by
  unfold findByEmail
  rw [List.find?_isSome]
  simp

/-- C4: the email-uniqueness invariant of the User table is preserved by
registration, the only mutating operation in scope. -/
theorem C4_email_uniqueness (st : StoreState) (input : RegisterInput)
    (hinv : emailUnique st.users) :
    emailUnique ((registerHandler st input).2).users := by
  cases hreg : registerUser st input with
  | error msg =>
    simpa [registerHandler, hreg] using hinv
  | ok p =>
    obtain ⟨u, st'⟩ := p
    obtain ⟨hfind, hue, husers⟩ := registerUser_ok_shape st input u st' hreg
    intro E
    simp only [registerHandler, hreg]
    rw [husers, List.countP_append]
    by_cases hE : u.email = E
    · subst hE
      have hzero : List.countP (fun x => x.email == u.email) st.users = 0 := by
        rw [List.countP_eq_zero]
        intro a ha
        have hnone := List.find?_eq_none.mp hfind a ha
        simpa [hue] using hnone
      rw [hzero]
      simp [List.countP_cons]
    · have hone : List.countP (fun x => x.email == E) [u] = 0 := by
        simp [List.countP_cons, hE]
      rw [hone]
      simpa using hinv E

/-- C4 witness: registering a user into the empty store keeps the table
email-unique. -/
theorem C4_email_uniqueness_witness :
    emailUnique ((registerHandler stEmpty regInputA).2).users :=
  C4_email_uniqueness stEmpty regInputA (fun E => by simp [stEmpty])

/-- C5: every User crossing the outward boundary is passed through
sanitizeUser exactly at the outermost point before serialization: the
register handler embeds exactly the sanitized user as its data, the login
handler embeds exactly the sanitized user inside its data, and the
projection drops the password hash and nothing else, keeping id, email,
name, createdAt and updatedAt unchanged. -/
theorem C5_sanitize_projection (st st2 : StoreState) (input : RegisterInput)
    (u u2 : User) (st' : StoreState) (cfg : JwtConfig) (now : Nat)
    (li : LoginInput)
    (hreg : registerUser st input = Except.ok (u, st'))
    (hval : validateUser st2 li.email li.password = some u2) :
    Json.lookup (registerHandler st input).1.body "data" =
      some (sanitizeUser u).toJson ∧
    ((Json.lookup (loginHandler cfg now st2 li).body "data").bind
      (fun d => Json.lookup d "user")) = some (sanitizeUser u2).toJson ∧
    (sanitizeUser u).id = u.id ∧ (sanitizeUser u).email = u.email ∧
    (sanitizeUser u).name = u.name ∧
    (sanitizeUser u).createdAt = u.createdAt ∧
    (sanitizeUser u).updatedAt = u.updatedAt ∧
    ((sanitizeUser u).toJson).keys =
      ["id", "email", "name", "createdAt", "updatedAt"] := by
  refine ⟨?_, ?_, rfl, rfl, rfl, rfl, rfl, rfl⟩
  · simp [registerHandler, hreg, success, Json.lookup, Json.objFields,
      List.lookup]
  · simp [loginHandler, hval, success, Json.lookup, Json.objFields,
      List.lookup]

/-- C5 witness: concrete registration and login runs embed exactly the
sanitized user. -/
theorem C5_sanitize_projection_witness :
    Json.lookup (registerHandler stEmpty regInputA).1.body "data" =
      some (sanitizeUser
        { id := 1
          email := "a@x.com"
          password := bcryptHash saltRounds 0 "Passw0rd"
          name := "Alice"
          createdAt := 100
          updatedAt := 100 }).toJson :=
  (C5_sanitize_projection stEmpty stA regInputA
    { id := 1
      email := "a@x.com"
      password := bcryptHash saltRounds 0 "Passw0rd"
      name := "Alice"
      createdAt := 100
      updatedAt := 100 }
    userA
    { users := [{ id := 1
                  email := "a@x.com"
                  password := bcryptHash saltRounds 0 "Passw0rd"
                  name := "Alice"
                  createdAt := 100
                  updatedAt := 100 }]
      nextId := 2
      now := 100
      nextSalt := 1 }
    cfgA 200 { email := "a@x.com", password := "Passw0rd" }
    (by rfl) (by decide)).1

/-- C6 counterexample: registering a fresh user into the empty store
yields an outward data object whose field list is exactly id, email and
name — the RegisterResponse schema strips createdAt and updatedAt, so the
claimed five-field shape is false. -/
theorem C6_counterexample :
    ((Json.lookup (registerRoute stEmpty regInputA).1.body "data").map Json.keys) ≠
      some ["id", "email", "name", "createdAt", "updatedAt"] ∧
    "createdAt" ∉
      (((Json.lookup (registerRoute stEmpty regInputA).1.body "data").map
        Json.keys).getD []) := by
  constructor
  · intro h
    simp [registerRoute, registerHandler, registerUser, create, findByEmail,
      stEmpty, regInputA, success, serializeRegisterResponse, schemaField,
      Json.lookup, Json.objFields, Json.keys, List.lookup,
      SanitizedUser.toJson, sanitizeUser, HttpStatus.CREATED] at h
  · intro h
    simp [registerRoute, registerHandler, registerUser, create, findByEmail,
      stEmpty, regInputA, success, serializeRegisterResponse, schemaField,
      Json.lookup, Json.objFields, Json.keys, List.lookup,
      SanitizedUser.toJson, sanitizeUser, HttpStatus.CREATED] at h

/-- C6 amended: a successful registration returns an outward user object
containing exactly the fields id, email and name (never the password
hash); createdAt and updatedAt are stripped by the RegisterResponse
schema. -/
theorem C6_register_response_fields (st : StoreState) (input : RegisterInput)
    (u : User) (st' : StoreState)
    (hreg : registerUser st input = Except.ok (u, st')) :
    ((Json.lookup (registerRoute st input).1.body "data").map Json.keys) =
      some ["id", "email", "name"] := by
  simp [registerRoute, registerHandler, hreg, success, serializeRegisterResponse,
    schemaField, Json.lookup, Json.objFields, Json.keys, List.lookup,
    SanitizedUser.toJson, HttpStatus.CREATED]

/-- C6 witness: the amended field list at a concrete registration. -/
theorem C6_register_response_fields_witness :
    ((Json.lookup (registerRoute stEmpty regInputA).1.body "data").map Json.keys) =
      some ["id", "email", "name"] :=
  C6_register_response_fields stEmpty regInputA
    { id := 1
      email := "a@x.com"
      password := bcryptHash saltRounds 0 "Passw0rd"
      name := "Alice"
      createdAt := 100
      updatedAt := 100 }
    { users := [{ id := 1
                  email := "a@x.com"
                  password := bcryptHash saltRounds 0 "Passw0rd"
                  name := "Alice"
                  createdAt := 100
                  updatedAt := 100 }]
      nextId := 2
      now := 100
      nextSalt := 1 }
    (by rfl)

/-- C7: registration fails with the duplicate error exactly when a user
with the email already exists, surfaced with status 400 (a client error,
not a server error) and with the store untouched; otherwise exactly one
new row with that email is appended and the route answers 201. -/
theorem C7_duplicate_and_writes (st : StoreState) (input : RegisterInput) :
    ((∃ u ∈ st.users, u.email = input.email) →
      (registerRoute st input).1 =
        error "User with this email already exists" HttpStatus.BAD_REQUEST ∧
      (registerRoute st input).2 = st ∧
      400 ≤ HttpStatus.BAD_REQUEST ∧ HttpStatus.BAD_REQUEST < 500) ∧
    ((¬ ∃ u ∈ st.users, u.email = input.email) →
      ∃ u, (registerRoute st input).2.users = st.users ++ [u] ∧
        u.email = input.email ∧
        (registerRoute st input).1.status = HttpStatus.CREATED) := by
  constructor
  · intro hdup
    have hsome : (findByEmail st input.email).isSome = true :=
      (findByEmail_isSome_iff st input.email).mpr hdup
    obtain ⟨v, hv⟩ := Option.isSome_iff_exists.mp hsome
    refine ⟨?_, ?_, by decide, by decide⟩
    · simp [registerRoute, registerHandler, registerUser, hv, error,
        HttpStatus.BAD_REQUEST, HttpStatus.CREATED]
    · simp [registerRoute, registerHandler, registerUser, hv,
        HttpStatus.BAD_REQUEST, HttpStatus.CREATED]
  · intro hnone
    have hfind : findByEmail st input.email = none := by
      cases hf : findByEmail st input.email with
      | none => rfl
      | some v =>
        exact absurd ((findByEmail_isSome_iff st input.email).mp (by simp [hf]))
          hnone
    refine ⟨{ id := st.nextId
              email := input.email
              password := bcryptHash saltRounds st.nextSalt input.password
              name := input.name
              createdAt := st.now
              updatedAt := st.now }, ?_, rfl, ?_⟩
    · simp [registerRoute, registerHandler, registerUser, create, hfind,
        success, HttpStatus.CREATED]
    · simp [registerRoute, registerHandler, registerUser, create, hfind,
        success, HttpStatus.CREATED]

/-- C7 witness: registering the stored email again on the one-user store
fails as a client error without writing, and registering into the empty
store appends one row and answers 201. -/
theorem C7_duplicate_and_writes_witness :
    (registerRoute stA regInputA).1 =
      error "User with this email already exists" HttpStatus.BAD_REQUEST ∧
    (registerRoute stA regInputA).2 = stA ∧
    (registerRoute stEmpty regInputA).1.status = HttpStatus.CREATED := by
  refine ⟨?_, ?_, ?_⟩
  · exact ((C7_duplicate_and_writes stA regInputA).1
      ⟨userA, by decide, by decide⟩).1
  · exact ((C7_duplicate_and_writes stA regInputA).1
      ⟨userA, by decide, by decide⟩).2.1
  · obtain ⟨u, _, _, hstatus⟩ := (C7_duplicate_and_writes stEmpty regInputA).2
      (by simp [stEmpty])
    exact hstatus

/-- C9 counterexample: in development mode a registration request whose
body fails schema validation is answered by the global error handler with
a payload that carries the stack field, so the claim fails for that
runtime mode. -/
theorem C9_counterexample :
    "stack" ∈
      ((registerRequest (some "development") stEmpty badRegInput
        (some devStackTrace)).1.body).keys := by
  decide

/-- C9 amended: outside development mode, no outward-facing failure
payload of registration (validation failure or duplicate), login
(invalid credentials) or request authorization (rejection) ever carries
more than the fixed constant fields success, message and statusCode: the
bodies are literal constants containing neither password hashes, nor the
token secret, nor any stack detail; in development mode the global error
handler additionally appends the stack trace. -/
theorem C9_no_leak_outside_dev (nodeEnv : Option String)
    (hdev : nodeEnv ≠ some "development")
    (cfg : JwtConfig) (now : Nat) (st : StoreState) (ri : RegisterInput)
    (li : LoginInput) (tok : Option JwtToken) (stack : Option String) :
    (validRegisterInput ri = false →
      (registerRequest nodeEnv st ri stack).1.body =
        Json.obj [("success", Json.boolean false),
                  ("message", Json.str "body does not match the route schema"),
                  ("statusCode", Json.num HttpStatus.BAD_REQUEST)]) ∧
    ((∃ u ∈ st.users, u.email = ri.email) → validRegisterInput ri = true →
      (registerRequest nodeEnv st ri stack).1 =
        error "User with this email already exists" HttpStatus.BAD_REQUEST) ∧
    (validateUser st li.email li.password = none →
      loginRoute cfg now st li =
        error "Invalid email or password" HttpStatus.UNAUTHORIZED) ∧
    (∀ r, authenticate cfg now tok = Except.error r →
      r = unauthorized "Invalid or expired token") := by
  have hmsg : ("body does not match the route schema" : String).isEmpty = false := by
    decide
  refine ⟨?_, ?_, ?_, ?_⟩
  · intro hbad
    simp [registerRequest, hbad, errorHandler, validationError, hdev, hmsg,
      HttpStatus.BAD_REQUEST, HttpStatus.INTERNAL_ERROR]
  · intro hdup hok
    have hsome : (findByEmail st ri.email).isSome = true :=
      (findByEmail_isSome_iff st ri.email).mpr hdup
    obtain ⟨v, hv⟩ := Option.isSome_iff_exists.mp hsome
    simp [registerRequest, hok, registerRoute, registerHandler, registerUser,
      hv, error, HttpStatus.BAD_REQUEST, HttpStatus.CREATED]
  · intro hval
    simp [loginRoute, loginHandler, hval, error, HttpStatus.UNAUTHORIZED,
      HttpStatus.OK]
  · intro r hr
    cases tok with
    | none =>
      simp [authenticate] at hr
      exact hr.symm
    | some t =>
      cases hverify : jwtVerify t cfg.secret now with
      | none =>
        simp [authenticate, hverify] at hr
        exact hr.symm
      | some claims =>
        simp [authenticate, hverify] at hr

/-- C9 amended witness: concrete failure payloads of the three operations
outside development mode. -/
theorem C9_no_leak_outside_dev_witness :
    (registerRequest (some "production") stEmpty badRegInput
        (some devStackTrace)).1.body =
      Json.obj [("success", Json.boolean false),
                ("message", Json.str "body does not match the route schema"),
                ("statusCode", Json.num HttpStatus.BAD_REQUEST)] ∧
    (registerRequest (some "production") stA regInputA none).1 =
      error "User with this email already exists" HttpStatus.BAD_REQUEST ∧
    loginRoute cfgA 200 stA { email := "b@x.com", password := "whatever1" } =
      error "Invalid email or password" HttpStatus.UNAUTHORIZED ∧
    unauthorized "Invalid or expired token" =
      unauthorized "Invalid or expired token" := by
  have h := C9_no_leak_outside_dev (some "production") (by decide) cfgA 200 stA
    regInputA { email := "b@x.com", password := "whatever1" } none
    (some devStackTrace)
  have h0 := C9_no_leak_outside_dev (some "production") (by decide) cfgA 200
    stEmpty badRegInput { email := "b@x.com", password := "whatever1" } none
    (some devStackTrace)
  refine ⟨h0.1 (by decide), ?_, h.2.2.1 (by decide), ?_⟩
  · have := h.2.1 ⟨userA, by decide, by decide⟩ (by decide)
    simpa using this
  · exact h.2.2.2 (unauthorized "Invalid or expired token") (by rfl)

end RealWorldFastify
